import Mathlib

/-!
Verification development for the pub-quiz backend (FastAPI + SQLAlchemy).

Shallow embedding of the real-time room session engine:
* `src/db/models.py` — the `Room`, `Team`, `TeamRoomParticipation`, `Question`,
  `QuestionOption`, `Answer` tables become Lean structures; the database is a
  record of row lists.
* `src/api/routes/websocket.py` — `websocket_endpoint` (connect phase and
  message loop), `process_answer`, `send_question`, `send_leaderboard`,
  `broadcast_leaderboard`.
* `src/services/websocket.py` — `ConnectionManager`.
* `src/services/question_service.py` — `create_question`, `set_question_active`.

Python strings are modelled as lists of Unicode codepoints (`PyStr`); Python's
`str.upper`/`str.lower` are modelled on the ASCII letter range, which covers the
alphabetic data the quiz engine compares (option letters and answer text).
SQLAlchemy queries become `List.filter`/`List.find?` over the row lists; an
`ORDER BY` with ties is modelled as a relation on output lists because SQL
leaves the relative order of tied rows unspecified. Raised exceptions are
modelled with `Except`; a `try/except` that swallows the error becomes a total
function.
-/

namespace Quiz

/-- Python strings as lists of Unicode codepoints. -/
abbrev PyStr := List Nat

/-- Embed a Lean string literal as a `PyStr` (used for the fixed literals the
source compares against or interpolates into messages). -/
def strLit (s : String) : PyStr := s.data.map Char.toNat

/-- `str.upper` on one codepoint (ASCII range, as the quiz data uses). -/
def pyUpperChar (c : Nat) : Nat := if 97 ≤ c ∧ c ≤ 122 then c - 32 else c

/-- `str.lower` on one codepoint (ASCII range). -/
def pyLowerChar (c : Nat) : Nat := if 65 ≤ c ∧ c ≤ 90 then c + 32 else c

/-- `str.upper`. -/
def pyUpper (s : PyStr) : PyStr := s.map pyUpperChar

/-- `str.lower`. -/
def pyLower (s : PyStr) : PyStr := s.map pyLowerChar

/-- Question types, the `question_type` enum of `db/models.py`. -/
inductive QType
  | MULTIPLE_CHOICE
  | TEXT
deriving DecidableEq, Repr

/-- Row of the `rooms` table (fields the session engine reads). -/
structure Room where
  id : String
  name : PyStr
  is_active : Bool
deriving DecidableEq, Repr

/-- Row of the `teams` table (fields the session engine reads). -/
structure Team where
  id : Nat
  name : PyStr
  profile_picture : Option PyStr
  slogan : Option PyStr
  total_points : Int
deriving DecidableEq, Repr

/-- Row of the `team_room_participation` table. -/
structure TeamRoomParticipation where
  id : Nat
  team_id : Nat
  room_id : String
  points : Int
deriving DecidableEq, Repr

/-- Row of the `questions` table. -/
structure Question where
  id : Nat
  room_id : String
  text : PyStr
  question_type : QType
  correct_answer : PyStr
  points : Int
  time_limit : Option Int
  is_active : Bool
deriving DecidableEq, Repr

/-- Row of the `question_options` table. -/
structure QuestionOption where
  id : Nat
  question_id : Nat
  option_letter : PyStr
  option_text : PyStr
deriving DecidableEq, Repr

/-- Row of the `answers` table (fields the session engine reads/writes). -/
structure Answer where
  id : Nat
  team_id : Nat
  question_id : Nat
  text : PyStr
  is_correct : Bool
deriving DecidableEq, Repr

/-- The database: one list of rows per table. -/
structure DB where
  rooms : List Room
  teams : List Team
  participations : List TeamRoomParticipation
  questions : List Question
  options : List QuestionOption
  answers : List Answer
deriving DecidableEq, Repr

/-- The answer judge, embedded from `process_answer`
(`src/api/routes/websocket.py` lines 186-192): multiple choice compares
`answer_text.upper() == question.correct_answer.upper()`, free text compares
`answer_text.lower() == question.correct_answer.lower()`. -/
def judge (question : Question) (answer_text : PyStr) : Bool :=
  if question.question_type = QType.MULTIPLE_CHOICE then
    pyUpper answer_text == pyUpper question.correct_answer
  else
    pyLower answer_text == pyLower question.correct_answer

/-- Spec-side notion: two strings are equal up to case when they agree after
case folding (and nothing else — no trimming, no other normalization). -/
def eqUpToCase (a b : PyStr) : Prop := pyLower a = pyLower b

/-! ## Connection manager (`src/services/websocket.py`) -/

/-- A live websocket connection. `ok` records whether `send_text` to this
connection succeeds or raises (connection closed, buffer full, ...). -/
structure Conn where
  id : Nat
  ok : Bool
deriving DecidableEq, Repr

/-- `ConnectionManager.active_connections`, the dict mapping a room id to the
list of connections in that room. -/
structure ConnectionManager where
  active_connections : List (String × List Conn)
deriving DecidableEq, Repr

/-- Dict lookup `active_connections[room_id]` (`room_id in active_connections`
guard included by returning `none` when absent). -/
def ConnectionManager.lookup (m : ConnectionManager) (room_id : String) : Option (List Conn) :=
  (m.active_connections.find? (fun p => p.1 == room_id)).map Prod.snd

/-- The room's live set: the connections the broadcast loop iterates over
(empty when the room has no entry). -/
def ConnectionManager.members (m : ConnectionManager) (room_id : String) : List Conn :=
  (m.lookup room_id).getD []

/-- `connection.send_text(...)`: `Except.error` models the raised exception. -/
def sendText (c : Conn) : Except Unit Unit :=
  if c.ok then Except.ok () else Except.error ()

/-- The `for connection in ...: try: send / except: pass` loop of
`ConnectionManager.broadcast`: each send is attempted in turn; a raised
exception is swallowed (`pass`) and the loop continues with the next
connection. Returns the per-connection delivery outcome. -/
def broadcastLoop : List Conn → List (Conn × Bool)
  | [] => []
  | c :: rest =>
    match sendText c with
    | Except.ok _ => (c, true) :: broadcastLoop rest
    | Except.error _ => (c, false) :: broadcastLoop rest

/-- `ConnectionManager.broadcast(message, room_id)`. A total function: it
always returns normally to the caller, whatever the per-connection
outcomes. -/
def ConnectionManager.broadcast (m : ConnectionManager) (room_id : String) :
    List (Conn × Bool) :=
  match m.lookup room_id with
  | some conns => broadcastLoop conns
  | none => []

/-- `ConnectionManager.connect`: create the room's list if absent, then append
the websocket. (The model omits the `websocket.accept()` handshake.) -/
def ConnectionManager.connect (m : ConnectionManager) (ws : Conn) (room_id : String) :
    ConnectionManager :=
  match m.active_connections.find? (fun p => p.1 == room_id) with
  | some _ =>
    ⟨m.active_connections.map (fun p => if p.1 == room_id then (p.1, p.2 ++ [ws]) else p)⟩
  | none => ⟨m.active_connections ++ [(room_id, [ws])]⟩

/-! ## Outbound payloads (`src/api/routes/websocket.py`) -/

/-- The JSON payload built by `send_question` (lines 137-159): it carries id,
text, question_type, points, time_limit, and — only for multiple choice — the
options list; it has no field for the correct answer. -/
structure QuestionPayload where
  id : Nat
  text : PyStr
  question_type : QType
  points : Int
  time_limit : Option Int
  options : Option (List (PyStr × PyStr))
deriving DecidableEq, Repr

/-- One entry of the leaderboard payload built by `send_leaderboard` /
`broadcast_leaderboard`. -/
structure LeaderboardEntry where
  rank : Nat
  team_id : Nat
  team_name : PyStr
  profile_picture : Option PyStr
  slogan : Option PyStr
  points : Int
deriving DecidableEq, Repr

/-- JSON payloads the engine sends, tagged by their `type` field. -/
inductive Payload
  | team_info (team_id : Nat) (team_name : PyStr) (profile_picture : Option PyStr)
      (slogan : Option PyStr) (room_points : Int) (total_points : Int)
  | system_message (message : PyStr)
  | chat (team_id : Nat) (team_name : PyStr) (profile_picture : Option PyStr) (message : PyStr)
  | question (p : QuestionPayload)
  | answer_result_correct (points_earned : Int) (total_points : Int)
  | answer_result_incorrect (correct_answer : PyStr)
deriving DecidableEq, Repr

/-- Observable effects of a handler step. The two leaderboard effects carry no
rows because the leaderboard query's tie order is not determined by the state
(see `leaderboardQueryResult`); they mark the calls to `send_leaderboard` and
`broadcast_leaderboard`. -/
inductive Effect
  | sendPrivate (p : Payload)
  | broadcastRoom (p : Payload)
  | sendLeaderboardSnapshot
  | broadcastLeaderboard
  | closeConn (code : Nat)
deriving DecidableEq, Repr

/-- `send_question` (lines 137-159) as a payload builder: base fields from the
question row, plus the options query result when the question is multiple
choice. -/
def send_question_payload (db : DB) (question : Question) : QuestionPayload :=
  { id := question.id
    text := question.text
    question_type := question.question_type
    points := question.points
    time_limit := question.time_limit
    options :=
      if question.question_type = QType.MULTIPLE_CHOICE then
        some ((db.options.filter (fun o => o.question_id == question.id)).map
          (fun o => (o.option_letter, o.option_text)))
      else none }

/-! ## Leaderboard (`send_leaderboard` lines 250-283, `broadcast_leaderboard`
lines 285-322) -/

/-- One row of the leaderboard query: the selected columns
`Team.id, Team.name, Team.profile_picture, Team.slogan,
TeamRoomParticipation.points`. -/
structure LRow where
  team_id : Nat
  team_name : PyStr
  profile_picture : Option PyStr
  slogan : Option PyStr
  points : Int
deriving DecidableEq, Repr

/-- The rows produced by joining `Team` with `TeamRoomParticipation` on
`Team.id == TeamRoomParticipation.team_id` and filtering on the room
(before the `ORDER BY`), in table order. -/
def roomRows (db : DB) (room_id : String) : List LRow :=
  (db.participations.filter (fun p => p.room_id == room_id)).filterMap
    (fun p => (db.teams.find? (fun t => t.id == p.team_id)).map
      (fun t => { team_id := t.id, team_name := t.name,
                  profile_picture := t.profile_picture, slogan := t.slogan,
                  points := p.points }))

/-- The leaderboard query `... .order_by(desc(TeamRoomParticipation.points))`:
SQL fixes the row multiset and that points are non-increasing, but leaves the
relative order of tied rows unspecified, so the query's possible outputs form
a relation over lists. -/
def leaderboardQueryResult (db : DB) (room_id : String) (l : List LRow) : Prop :=
  l.Perm (roomRows db room_id) ∧ l.Pairwise (fun a b => b.points ≤ a.points)

/-- The `for rank, (...) in enumerate(team_rankings, 1)` formatting loop shared
by `send_leaderboard` and `broadcast_leaderboard`. -/
def formatLeaderboardFrom (rank : Nat) : List LRow → List LeaderboardEntry
  | [] => []
  | r :: rest =>
    { rank := rank, team_id := r.team_id, team_name := r.team_name,
      profile_picture := r.profile_picture, slogan := r.slogan, points := r.points }
      :: formatLeaderboardFrom (rank + 1) rest

/-- The `leaderboard` list built by `send_leaderboard` from the query rows. -/
def send_leaderboard_payload (l : List LRow) : List LeaderboardEntry :=
  formatLeaderboardFrom 1 l

/-- The `leaderboard` list built by `broadcast_leaderboard` from the query
rows (the code duplicates the same query and loop). -/
def broadcast_leaderboard_payload (l : List LRow) : List LeaderboardEntry :=
  formatLeaderboardFrom 1 l

/-- The data columns of a leaderboard entry, rank stripped. -/
def entryRow (e : LeaderboardEntry) : LRow :=
  { team_id := e.team_id, team_name := e.team_name,
    profile_picture := e.profile_picture, slogan := e.slogan, points := e.points }

/-- Example state for the leaderboard claims: two teams tied at 5 points in
room `"r"`. -/
def dbLB : DB :=
  { rooms := [{ id := "r", name := [114], is_active := true }]
    teams := [{ id := 1, name := [97], profile_picture := none, slogan := none, total_points := 5 },
              { id := 2, name := [98], profile_picture := none, slogan := none, total_points := 5 }]
    participations := [{ id := 1, team_id := 1, room_id := "r", points := 5 },
                       { id := 2, team_id := 2, room_id := "r", points := 5 }]
    questions := []
    options := []
    answers := [] }

/-- First tied query row of `dbLB`. -/
def rowT1 : LRow :=
  { team_id := 1, team_name := [97], profile_picture := none, slogan := none, points := 5 }

/-- Second tied query row of `dbLB`. -/
def rowT2 : LRow :=
  { team_id := 2, team_name := [98], profile_picture := none, slogan := none, points := 5 }

/-! ## Connect phase of `websocket_endpoint` (lines 29-83) -/

/-- The f-string `f"Team {team.name} joined the room!"`. -/
def joinedMsg (name : PyStr) : PyStr :=
  strLit "Team " ++ name ++ strLit " joined the room!"

/-- Websocket close code `status.WS_1008_POLICY_VIOLATION`. -/
def WS_1008_POLICY_VIOLATION : Nat := 1008

/-- The connect phase of `websocket_endpoint`: verify room, team and
participation (closing with policy violation on any failure, before touching
the manager and before sending anything), then register the connection and run
the entry actions — private `team_info`, broadcast join `system_message`,
private leaderboard snapshot, and the active question payload if one exists.
Returns the updated manager and the effects in order. -/
def websocket_endpoint_connect (db : DB) (m : ConnectionManager) (room_id : String)
    (team_id : Nat) (ws : Conn) : ConnectionManager × List Effect :=
  match db.rooms.find? (fun r => r.id == room_id) with
  | none => (m, [Effect.closeConn WS_1008_POLICY_VIOLATION])
  | some _ =>
    match db.teams.find? (fun t => t.id == team_id) with
    | none => (m, [Effect.closeConn WS_1008_POLICY_VIOLATION])
    | some team =>
      match db.participations.find? (fun p => p.team_id == team_id && p.room_id == room_id) with
      | none => (m, [Effect.closeConn WS_1008_POLICY_VIOLATION])
      | some participation =>
        let m1 := m.connect ws room_id
        let entry : List Effect :=
          [Effect.sendPrivate (Payload.team_info team.id team.name team.profile_picture
              team.slogan participation.points team.total_points),
           Effect.broadcastRoom (Payload.system_message (joinedMsg team.name)),
           Effect.sendLeaderboardSnapshot]
        let qeff : List Effect :=
          match db.questions.find? (fun q => q.room_id == room_id && q.is_active) with
          | some q => [Effect.sendPrivate (Payload.question (send_question_payload db q))]
          | none => []
        (m1, entry ++ qeff)

/-! ## Answer processing (`process_answer`, lines 161-248) -/

/-- Update the first element satisfying `p` (the row a `query(...).first()`
handed out and the code then mutates), leaving the rest unchanged. -/
def updateFirst (p : α → Bool) (f : α → α) : List α → List α
  | [] => []
  | a :: rest => if p a then f a :: rest else a :: updateFirst p f rest

/-- Autoincrement primary key for a fresh `answers` row. -/
def nextAnswerId (l : List Answer) : Nat :=
  l.foldr (fun a m => max (a.id + 1) m) 0

/-- The wrong-answer reveal text (lines 231-242): for multiple choice, the
matching option rendered as `f"{letter}: {text}"` (falling back to the raw
correct answer when no option matches); for free text, the raw correct
answer. -/
def correctAnswerText (db : DB) (question : Question) : PyStr :=
  if question.question_type = QType.MULTIPLE_CHOICE then
    match db.options.find? (fun o =>
        o.question_id == question.id && o.option_letter == question.correct_answer) with
    | some opt => opt.option_letter ++ strLit ": " ++ opt.option_text
    | none => question.correct_answer
  else question.correct_answer

/-- Fields of an inbound `answer` event: `message_data.get("question_id")`
(absent modelled as `none`) and `message_data.get("answer", "")`. -/
structure AnswerMsg where
  question_id : Option Nat
  answer : PyStr
deriving DecidableEq, Repr

/-- The answer upsert of `process_answer` (lines 180-209): look up the
existing `Answer` row for the (team, question) pair; overwrite its text and
correctness if present, insert a fresh row otherwise. -/
def upsert_answer (answers : List Answer) (team_id qid : Nat) (answer_text : PyStr)
    (is_correct : Bool) : List Answer :=
  match answers.find? (fun a => a.team_id == team_id && a.question_id == qid) with
  | some _ =>
    updateFirst (fun a => a.team_id == team_id && a.question_id == qid)
      (fun a => { a with text := answer_text, is_correct := is_correct }) answers
  | none =>
    answers ++ [{ id := nextAnswerId answers, team_id := team_id, question_id := qid,
                  text := answer_text, is_correct := is_correct }]

/-- Body of `process_answer` once the room's active question has been resolved
(the `if question:` branch, lines 179-248): judge, upsert the answer, then on
a correct verdict add the question's points to the participation row and the
team row (the code's single commit is modelled as the simultaneous record
update), send the private correct result carrying the new room total, and
trigger the leaderboard broadcast; on a wrong verdict send only the private
reveal. -/
def process_answer_found (db : DB) (team_id : Nat) (room_id : String)
    (question : Question) (answer_text : PyStr) : DB × List Effect :=
  let is_correct := judge question answer_text
  let db1 := { db with
    answers := upsert_answer db.answers team_id question.id answer_text is_correct }
  if is_correct then
    let db2 := { db1 with
      participations := updateFirst (fun p => p.team_id == team_id && p.room_id == room_id)
        (fun p => { p with points := p.points + question.points }) db1.participations
      teams := updateFirst (fun t => t.id == team_id)
        (fun t => { t with total_points := t.total_points + question.points }) db1.teams }
    let newRoomPoints : Int :=
      match db1.participations.find? (fun p => p.team_id == team_id && p.room_id == room_id) with
      | some p => p.points + question.points
      | none => 0
    (db2, [Effect.sendPrivate (Payload.answer_result_correct question.points newRoomPoints),
           Effect.broadcastLeaderboard])
  else
    (db1, [Effect.sendPrivate (Payload.answer_result_incorrect (correctAnswerText db question))])

/-- `process_answer` (lines 161-248): resolve the room's currently active
question by the submitted id (an absent id matches nothing); if none matches,
do nothing and send nothing; otherwise run the resolved branch. -/
def process_answer (db : DB) (team_id : Nat) (room_id : String) (msg : AnswerMsg) :
    DB × List Effect :=
  let found : Option Question :=
    match msg.question_id with
    | none => none
    | some qid =>
      db.questions.find? (fun q => q.id == qid && q.room_id == room_id && q.is_active)
  match found with
  | none => (db, [])
  | some question => process_answer_found db team_id room_id question msg.answer

/-! ## Message loop of `websocket_endpoint` (lines 86-125) -/

/-- Result of `json.loads` on an inbound frame, as the loop's control flow
distinguishes it: `malformed` (raises `json.JSONDecodeError`), `nonDict`
(valid JSON that is not an object, so `.get` raises `AttributeError`), or an
object with the fields the loop reads. -/
inductive Parsed
  | malformed
  | nonDict
  | dict (ty : Option PyStr) (message : Option PyStr) (question_id : Option Nat)
      (answer : Option PyStr)
deriving DecidableEq, Repr

/-- Python exceptions that can escape one loop iteration. -/
inductive PyErr
  | attributeError
deriving DecidableEq, Repr

/-- The literal `"chat"`. -/
def chatLit : PyStr := strLit "chat"

/-- The literal `"answer"`. -/
def answerLit : PyStr := strLit "answer"

/-- One iteration of the `while True` receive loop (lines 86-125) applied to
an inbound frame with raw text `raw` that parsed as `parsed`: a
`json.JSONDecodeError` is caught and the raw text is re-broadcast as chat; an
object with `type == "chat"` broadcasts the chat message; `type == "answer"`
runs `process_answer`; any other object type falls through the `if`/`elif`
with no action; a non-object value makes `message_data.get` raise an
`AttributeError` that no handler catches (`Except.error`, terminating the
connection). -/
def handle_message (db : DB) (team : Team) (room_id : String) (raw : PyStr)
    (parsed : Parsed) : Except PyErr (DB × List Effect) :=
  match parsed with
  | Parsed.malformed =>
    Except.ok (db, [Effect.broadcastRoom
      (Payload.chat team.id team.name team.profile_picture raw)])
  | Parsed.nonDict => Except.error PyErr.attributeError
  | Parsed.dict ty message question_id answer =>
    if ty = some chatLit then
      Except.ok (db, [Effect.broadcastRoom
        (Payload.chat team.id team.name team.profile_picture (message.getD []))])
    else if ty = some answerLit then
      Except.ok (process_answer db team.id room_id
        { question_id := question_id, answer := answer.getD [] })
    else
      Except.ok (db, [])

/-! ## Question service (`src/services/question_service.py`) -/

/-- Pydantic `QuestionCreate` (`schemas/question_schema.py`): `points`
defaults to 1, `time_limit` to absent, `is_active` to `False` but all are
client-settable; `options` defaults to absent (modelled as `[]`). -/
structure QuestionCreate where
  room_id : String
  text : PyStr
  question_type : QType
  correct_answer : PyStr
  points : Int
  time_limit : Option Int
  is_active : Bool
  options : List (PyStr × PyStr)
deriving DecidableEq, Repr

/-- Autoincrement primary key for a fresh `questions` row. -/
def nextQuestionId (l : List Question) : Nat :=
  l.foldr (fun q m => max (q.id + 1) m) 0

/-- Autoincrement primary key for a fresh `question_options` row. -/
def nextOptionId (l : List QuestionOption) : Nat :=
  l.foldr (fun o m => max (o.id + 1) m) 0

/-- Fresh `question_options` rows for the created question, in input order. -/
def assignOptionIds (base qid : Nat) : List (PyStr × PyStr) → List QuestionOption
  | [] => []
  | o :: rest =>
    { id := base, question_id := qid, option_letter := o.1, option_text := o.2 }
      :: assignOptionIds (base + 1) qid rest

/-- `QuestionService.create_question` (lines 21-51): insert a question carrying
the client-supplied activity flag verbatim — no sibling is deactivated — and,
when options were supplied and the type is multiple choice, insert the option
rows. -/
def create_question (db : DB) (qc : QuestionCreate) : DB × Question :=
  let qid := nextQuestionId db.questions
  let q : Question :=
    { id := qid, room_id := qc.room_id, text := qc.text, question_type := qc.question_type,
      correct_answer := qc.correct_answer, points := qc.points, time_limit := qc.time_limit,
      is_active := qc.is_active }
  let newOpts :=
    if !qc.options.isEmpty && (qc.question_type == QType.MULTIPLE_CHOICE) then
      assignOptionIds (nextOptionId db.options) qid qc.options
    else []
  ({ db with questions := db.questions ++ [q], options := db.options ++ newOpts }, q)

/-- The per-row update of the bulk
`db.query(Question).filter(room, id != target).update({"is_active": False})`
in `set_question_active`. -/
def deactivateOthers (room_id_t : String) (question_id : Nat) (q : Question) : Question :=
  if q.room_id == room_id_t && q.id != question_id then { q with is_active := false } else q

/-- The per-row update of `db_question.is_active = is_active` in
`set_question_active`. -/
def setActiveFlag (question_id : Nat) (is_active : Bool) (q : Question) : Question :=
  if q.id == question_id then { q with is_active := is_active } else q

/-- `QuestionService.set_question_active` (lines 98-120): `None` if the
question is absent; otherwise, when activating, first deactivate every other
question of the same room, then set the target's flag, in one transaction. -/
def set_question_active (db : DB) (question_id : Nat) (is_active : Bool) : Option DB :=
  match db.questions.find? (fun q => q.id == question_id) with
  | none => none
  | some target =>
    let qs1 :=
      if is_active then db.questions.map (deactivateOthers target.room_id question_id)
      else db.questions
    some { db with questions := qs1.map (setActiveFlag question_id is_active) }

/-- Invariant: at most one question per room has the activity flag set (no two
distinct rows are both active in the same room). -/
def atMostOneActivePerRoom (db : DB) : Prop :=
  db.questions.Pairwise
    (fun a b => ¬(a.is_active = true ∧ b.is_active = true ∧ a.room_id = b.room_id))

/-- Primary-key uniqueness of the `questions` table. -/
def questionIdsUnique (db : DB) : Prop :=
  db.questions.Pairwise (fun a b => a.id ≠ b.id)

/-- The `answers` table holds at most one row per (team, question) pair. -/
def answersUnique (db : DB) : Prop :=
  db.answers.Pairwise (fun a b => ¬(a.team_id = b.team_id ∧ a.question_id = b.question_id))

/-- Concrete active multiple-choice question (5 points, correct answer `"B"`)
used by the concrete-state witnesses. -/
def qC3 : Question :=
  { id := 10, room_id := "r", text := strLit "2+2?", question_type := QType.MULTIPLE_CHOICE,
    correct_answer := [66], points := 5, time_limit := none, is_active := true }

/-- Concrete participation row (team 1 in room `"r"` with 0 points). -/
def partC3 : TeamRoomParticipation := { id := 1, team_id := 1, room_id := "r", points := 0 }

/-- Concrete team row for the concrete-state witnesses. -/
def teamC3 : Team :=
  { id := 1, name := [97], profile_picture := none, slogan := none, total_points := 0 }

/-- Concrete database: one room, one team participating, one active
multiple-choice question with two options, no answers yet. -/
def dbC3 : DB :=
  { rooms := [{ id := "r", name := [114], is_active := true }]
    teams := [teamC3]
    participations := [partC3]
    questions := [qC3]
    options := [{ id := 1, question_id := 10, option_letter := [65], option_text := strLit "three" },
                { id := 2, question_id := 10, option_letter := [66], option_text := strLit "four" }]
    answers := [] }

/-- A `QuestionCreate` payload that arrives with `is_active = true`. -/
def qcC1 : QuestionCreate :=
  { room_id := "r", text := [63], question_type := QType.TEXT, correct_answer := [52],
    points := 1, time_limit := none, is_active := true, options := [] }

/-! ## General lemmas about the embedded operations -/

theorem pyUpperChar_eq_iff (x y : Nat) :
    pyUpperChar x = pyUpperChar y ↔ pyLowerChar x = pyLowerChar y := by
  simp only [pyUpperChar, pyLowerChar]
  split_ifs <;> omega

theorem pyUpper_eq_iff (a b : PyStr) : pyUpper a = pyUpper b ↔ pyLower a = pyLower b := by
  induction a generalizing b with
  | nil => cases b <;> simp [pyUpper, pyLower]
  | cons x a ih =>
    cases b with
    | nil => simp [pyUpper, pyLower]
    | cons y b =>
      simp only [pyUpper, pyLower, List.map_cons, List.cons.injEq]
      exact and_congr (pyUpperChar_eq_iff x y) (ih b)

theorem broadcastLoop_map_fst (conns : List Conn) :
    (broadcastLoop conns).map Prod.fst = conns := by
  induction conns with
  | nil => rfl
  | cons c rest ih =>
    unfold broadcastLoop sendText
    cases h : c.ok <;> simp [ih]

theorem broadcastLoop_outcome (conns : List Conn) (c : Conn) (h : c ∈ conns) :
    (c, c.ok) ∈ broadcastLoop conns := by
  induction conns with
  | nil => cases h
  | cons d rest ih =>
    unfold broadcastLoop sendText
    rcases List.mem_cons.mp h with rfl | hmem
    · cases hd : c.ok <;> simp [hd]
    · cases hd : d.ok <;> simp [ih hmem]

theorem formatLeaderboardFrom_map_rank (k : Nat) (l : List LRow) :
    (formatLeaderboardFrom k l).map (fun e => e.rank) = List.range' k l.length := by
  induction l generalizing k with
  | nil => rfl
  | cons r rest ih =>
    simp only [formatLeaderboardFrom, List.map_cons, List.length_cons, List.range'_succ]
    exact congrArg (k :: ·) (ih (k + 1))

theorem formatLeaderboardFrom_map_entryRow (k : Nat) (l : List LRow) :
    (formatLeaderboardFrom k l).map entryRow = l := by
  induction l generalizing k with
  | nil => rfl
  | cons r rest ih =>
    simp only [formatLeaderboardFrom, List.map_cons, ih (k + 1)]
    rfl

theorem find?_updateFirst_of_find? {α : Type _} (p : α → Bool) (f : α → α) (l : List α) (a : α)
    (hfind : l.find? p = some a) (hp : p (f a) = true) :
    (updateFirst p f l).find? p = some (f a) := by
  induction l with
  | nil => cases hfind
  | cons x rest ih =>
    unfold updateFirst
    cases hx : p x with
    | true =>
      rw [List.find?_cons_of_pos rest hx] at hfind
      injection hfind with h
      subst h
      simp [hx, hp]
    | false =>
      rw [List.find?_cons_of_neg rest (by simp [hx])] at hfind
      simp [hx, ih hfind]

theorem mem_updateFirst {α : Type _} (p : α → Bool) (f : α → α) (l : List α) (b : α)
    (hb : b ∈ updateFirst p f l) : b ∈ l ∨ ∃ c ∈ l, b = f c := by
  induction l with
  | nil => cases hb
  | cons x rest ih =>
    unfold updateFirst at hb
    cases hx : p x with
    | true =>
      rw [hx] at hb
      simp only [if_true] at hb
      rcases List.mem_cons.mp hb with rfl | hmem
      · exact Or.inr ⟨x, List.mem_cons_self x rest, rfl⟩
      · exact Or.inl (List.mem_cons_of_mem x hmem)
    | false =>
      rw [hx] at hb
      simp only [Bool.false_eq_true, if_false] at hb
      rcases List.mem_cons.mp hb with rfl | hmem
      · exact Or.inl (List.mem_cons_self b rest)
      · rcases ih hmem with h | ⟨c, hc, rfl⟩
        · exact Or.inl (List.mem_cons_of_mem x h)
        · exact Or.inr ⟨c, List.mem_cons_of_mem x hc, rfl⟩

theorem pairwise_updateFirst {α : Type _} {R : α → α → Prop} (p : α → Bool) (f : α → α)
    (hfl : ∀ a b, R a b → R (f a) b) (hfr : ∀ a b, R a b → R a (f b))
    (l : List α) (h : l.Pairwise R) : (updateFirst p f l).Pairwise R := by
  induction l with
  | nil => exact List.Pairwise.nil
  | cons x rest ih =>
    rcases List.pairwise_cons.mp h with ⟨hx, hrest⟩
    unfold updateFirst
    cases hp : p x with
    | true =>
      simp only [if_true]
      exact List.pairwise_cons.mpr ⟨fun b hb => hfl x b (hx b hb), hrest⟩
    | false =>
      simp only [Bool.false_eq_true, if_false]
      refine List.pairwise_cons.mpr ⟨?_, ih hrest⟩
      intro b hb
      rcases mem_updateFirst p f rest b hb with hmem | ⟨c, hc, rfl⟩
      · exact hx b hmem
      · exact hfr x c (hx c hc)

theorem filter_updateFirst_single {α : Type _} (p : α → Bool) (f : α → α) (l : List α)
    (hkey : ∀ a, p (f a) = p a)
    (hpair : l.Pairwise (fun x y => ¬(p x = true ∧ p y = true)))
    (a : α) (hfind : l.find? p = some a) :
    (updateFirst p f l).filter p = [f a] := by
  induction l with
  | nil => cases hfind
  | cons x rest ih =>
    rcases List.pairwise_cons.mp hpair with ⟨hx, hrest⟩
    unfold updateFirst
    cases hp : p x with
    | true =>
      rw [List.find?_cons_of_pos rest hp] at hfind
      injection hfind with h
      subst h
      have hrest_empty : rest.filter p = [] := by
        rw [List.filter_eq_nil_iff]
        intro b hb hpb
        exact hx b hb ⟨hp, hpb⟩
      simp [List.filter_cons, hkey, hp, hrest_empty]
    | false =>
      rw [List.find?_cons_of_neg rest (by simp [hp])] at hfind
      simp [List.filter_cons, hp, ih hrest hfind]

theorem process_answer_eq_found (db : DB) (team_id : Nat) (room_id : String) (msg : AnswerMsg)
    (qid : Nat) (question : Question)
    (hqid : msg.question_id = some qid)
    (hfind : db.questions.find? (fun q => q.id == qid && q.room_id == room_id && q.is_active)
      = some question) :
    process_answer db team_id room_id msg
      = process_answer_found db team_id room_id question msg.answer := by
  unfold process_answer
  simp only [hqid, hfind]

theorem process_answer_found_answers (db : DB) (team_id : Nat) (room_id : String)
    (question : Question) (answer_text : PyStr) :
    (process_answer_found db team_id room_id question answer_text).1.answers
      = upsert_answer db.answers team_id question.id answer_text
          (judge question answer_text) := by
  unfold process_answer_found
  cases hj : judge question answer_text <;> simp [hj]

theorem upsert_answer_unique (answers : List Answer) (team_id qid : Nat)
    (answer_text : PyStr) (b : Bool)
    (hu : answers.Pairwise (fun a c => ¬(a.team_id = c.team_id ∧ a.question_id = c.question_id))) :
    (upsert_answer answers team_id qid answer_text b).Pairwise
      (fun a c => ¬(a.team_id = c.team_id ∧ a.question_id = c.question_id)) := by
  unfold upsert_answer
  cases hex : answers.find? (fun a => a.team_id == team_id && a.question_id == qid) with
  | some a0 =>
    exact pairwise_updateFirst (fun a => a.team_id == team_id && a.question_id == qid)
      (fun a => { a with text := answer_text, is_correct := b })
      (fun _ _ h => h) (fun _ _ h => h) answers hu
  | none =>
    refine List.pairwise_append.mpr ⟨hu, by simp, ?_⟩
    intro a ha c hc
    rw [List.mem_singleton] at hc
    subst hc
    have hna := List.find?_eq_none.mp hex a ha
    simp only [Bool.and_eq_true, beq_iff_eq] at hna
    intro hcon
    exact hna hcon

theorem upsert_answer_filter (answers : List Answer) (team_id qid : Nat)
    (answer_text : PyStr) (b : Bool)
    (hu : answers.Pairwise (fun a c => ¬(a.team_id = c.team_id ∧ a.question_id = c.question_id))) :
    ∃ a, (upsert_answer answers team_id qid answer_text b).filter
        (fun x => x.team_id == team_id && x.question_id == qid) = [a] ∧
      a.text = answer_text ∧ a.is_correct = b := by
  have hpairP : answers.Pairwise
      (fun x y => ¬((x.team_id == team_id && x.question_id == qid) = true ∧
                    (y.team_id == team_id && y.question_id == qid) = true)) := by
    refine hu.imp ?_
    intro x y hxy hc
    rcases hc with ⟨hpx, hpy⟩
    simp only [Bool.and_eq_true, beq_iff_eq] at hpx hpy
    exact hxy ⟨hpx.1.trans hpy.1.symm, hpx.2.trans hpy.2.symm⟩
  unfold upsert_answer
  cases hex : answers.find? (fun a => a.team_id == team_id && a.question_id == qid) with
  | some a0 =>
    refine ⟨{ a0 with text := answer_text, is_correct := b },
      filter_updateFirst_single (fun x => x.team_id == team_id && x.question_id == qid)
        (fun a => { a with text := answer_text, is_correct := b })
        answers (fun _ => rfl) hpairP a0 hex, rfl, rfl⟩
  | none =>
    have hempty : answers.filter (fun x => x.team_id == team_id && x.question_id == qid) = [] :=
      List.filter_eq_nil_iff.mpr (List.find?_eq_none.mp hex)
    refine ⟨{ id := nextAnswerId answers, team_id := team_id, question_id := qid,
              text := answer_text, is_correct := b }, ?_, rfl, rfl⟩
    rw [List.filter_append, hempty]
    simp

theorem setActiveFlag_room_id (question_id : Nat) (b : Bool) (q : Question) :
    (setActiveFlag question_id b q).room_id = q.room_id := by
  unfold setActiveFlag
  split <;> rfl

theorem deactivateOthers_room_id (r : String) (question_id : Nat) (q : Question) :
    (deactivateOthers r question_id q).room_id = q.room_id := by
  unfold deactivateOthers
  split <;> rfl

theorem activate_room_id (r : String) (question_id : Nat) (b : Bool) (q : Question) :
    (setActiveFlag question_id b (deactivateOthers r question_id q)).room_id = q.room_id := by
  rw [setActiveFlag_room_id, deactivateOthers_room_id]

theorem setActiveFlag_false_act (question_id : Nat) (q : Question)
    (h : (setActiveFlag question_id false q).is_active = true) : q.is_active = true := by
  unfold setActiveFlag at h
  split at h
  · exact Bool.noConfusion h
  · exact h

/-! ## Claim theorems -/

/-- C10: the answer judge is a pure function of the question and submitted
text; its verdict is `true` exactly when the submitted text equals the
question's correct answer up to case (for multiple choice this is the letter
comparison, for free text the full-text comparison), with no other
normalization — in particular no whitespace trimming. -/
theorem C10_answer_judge (question : Question) (answer_text : PyStr) :
    judge question answer_text = true ↔ eqUpToCase answer_text question.correct_answer := by
  unfold judge eqUpToCase
  split_ifs with h
  · rw [beq_iff_eq, pyUpper_eq_iff]
  · rw [beq_iff_eq]

/-- C8: broadcast attempts delivery to every session in the room's live set
at call time — the delivery-attempt sequence is exactly the member list, so a
failed send to one session never prevents the attempt to any other — and each
session's outcome is its own transport outcome; the function is total, so no
per-session failure escapes to the caller. -/
theorem C8_broadcast_isolation (m : ConnectionManager) (room_id : String) :
    (m.broadcast room_id).map Prod.fst = m.members room_id ∧
    ∀ c ∈ m.members room_id, (c, c.ok) ∈ m.broadcast room_id := by
  unfold ConnectionManager.broadcast ConnectionManager.members
  cases h : m.lookup room_id with
  | none => simp
  | some conns =>
    refine ⟨broadcastLoop_map_fst conns, ?_⟩
    intro c hc
    exact broadcastLoop_outcome conns c hc

/-- Witness for `C8_broadcast_isolation`: a concrete room with one connection
whose send fails and one that can receive; both receive a delivery attempt and
the failing one does not block the other. -/
theorem C8_broadcast_isolation_witness :
    ((ConnectionManager.mk [("r", [⟨1, false⟩, ⟨2, true⟩])]).broadcast "r").map Prod.fst
        = (ConnectionManager.mk [("r", [⟨1, false⟩, ⟨2, true⟩])]).members "r" ∧
    (⟨2, true⟩, true) ∈ (ConnectionManager.mk [("r", [⟨1, false⟩, ⟨2, true⟩])]).broadcast "r" := by
  refine ⟨(C8_broadcast_isolation _ "r").1, ?_⟩
  have h := (C8_broadcast_isolation (ConnectionManager.mk [("r", [⟨1, false⟩, ⟨2, true⟩])]) "r").2
    ⟨2, true⟩ (by decide)
  simpa using h

/-- C7: the question payload never contains the correct answer — two questions
differing only in `correct_answer` produce identical payloads — and it carries
an options list exactly when the question is multiple choice. -/
theorem C7_question_payload_no_leak (db : DB) (question : Question) :
    (∀ c : PyStr, send_question_payload db { question with correct_answer := c }
        = send_question_payload db question) ∧
    ((send_question_payload db question).options.isSome
        ↔ question.question_type = QType.MULTIPLE_CHOICE) := by
  constructor
  · intro c
    rfl
  · unfold send_question_payload
    split_ifs with h <;> simp [h]

/-- C2 counterexample: with two teams tied at 5 points, `[rowT2, rowT1]` is a
possible output of the code's leaderboard query (`ORDER BY points DESC` only),
yet it is not ordered by the claimed deterministic secondary key (team id
ascending); moreover `[rowT1, rowT2]` is also a possible output, so two calls
on the unchanged state are not forced to produce identical results. -/
theorem C2_counterexample :
    leaderboardQueryResult dbLB "r" [rowT2, rowT1] ∧
    ¬ ([rowT2, rowT1].Pairwise
        (fun a b : LRow => b.points < a.points ∨ (a.points = b.points ∧ a.team_id < b.team_id))) ∧
    leaderboardQueryResult dbLB "r" [rowT1, rowT2] ∧
    [rowT2, rowT1] ≠ [rowT1, rowT2] := by
  refine ⟨⟨?_, by decide⟩, by decide, ⟨?_, by decide⟩, by decide⟩
  · have hrows : roomRows dbLB "r" = [rowT1, rowT2] := by decide
    rw [hrows]
    exact List.Perm.swap rowT1 rowT2 []
  · have hrows : roomRows dbLB "r" = [rowT1, rowT2] := by decide
    rw [hrows]

/-- C2 (amended): any possible output of the room's leaderboard query carries
exactly the room's joined participation rows sorted by descending points (tie
order unspecified — any two possible outputs are permutations of each other),
and both `send_leaderboard` and `broadcast_leaderboard` format it identically,
assigning 1-based contiguous sequential ranks `1..n` in enumeration order
while preserving the row data in order. -/
theorem C2_leaderboard_shape (db : DB) (room_id : String) (l : List LRow)
    (h : leaderboardQueryResult db room_id l) :
    (send_leaderboard_payload l).map (fun e => e.rank) = List.range' 1 l.length ∧
    (send_leaderboard_payload l).map entryRow = l ∧
    send_leaderboard_payload l = broadcast_leaderboard_payload l ∧
    ∀ l₂, leaderboardQueryResult db room_id l₂ → l₂.Perm l := by
  refine ⟨formatLeaderboardFrom_map_rank 1 l, formatLeaderboardFrom_map_entryRow 1 l, rfl, ?_⟩
  intro l₂ h₂
  exact h₂.1.trans h.1.symm

/-- Witness for `C2_leaderboard_shape` at the concrete state `dbLB`. -/
theorem C2_leaderboard_shape_witness :
    (send_leaderboard_payload [rowT1, rowT2]).map (fun e => e.rank)
        = List.range' 1 [rowT1, rowT2].length ∧
    (send_leaderboard_payload [rowT1, rowT2]).map entryRow = [rowT1, rowT2] ∧
    send_leaderboard_payload [rowT1, rowT2] = broadcast_leaderboard_payload [rowT1, rowT2] ∧
    ∀ l₂, leaderboardQueryResult dbLB "r" l₂ → l₂.Perm [rowT1, rowT2] :=
  C2_leaderboard_shape dbLB "r" [rowT1, rowT2]
    ⟨by rw [show roomRows dbLB "r" = [rowT1, rowT2] from by decide], by decide⟩

/-- C9: when the room does not exist, the team does not exist, or no
participation binds the team to the room, the connect phase closes with the
policy-violation status as its only effect — no payload is sent, nothing is
broadcast — and the connection manager is unchanged (the session is never
registered). -/
theorem C9_connect_reject (db : DB) (m : ConnectionManager) (room_id : String)
    (team_id : Nat) (ws : Conn)
    (h : db.rooms.find? (fun r => r.id == room_id) = none ∨
         db.teams.find? (fun t => t.id == team_id) = none ∨
         db.participations.find? (fun p => p.team_id == team_id && p.room_id == room_id) = none) :
    websocket_endpoint_connect db m room_id team_id ws
      = (m, [Effect.closeConn WS_1008_POLICY_VIOLATION]) := by
  unfold websocket_endpoint_connect
  rcases h with h | h | h
  · rw [h]
  · cases hr : db.rooms.find? (fun r => r.id == room_id) with
    | none => rfl
    | some _ => rw [h]
  · cases hr : db.rooms.find? (fun r => r.id == room_id) with
    | none => rfl
    | some _ =>
      cases ht : db.teams.find? (fun t => t.id == team_id) with
      | none => rfl
      | some _ => rw [h]

/-- Witness for `C9_connect_reject`: the room `"nope"` does not exist in
`dbLB`, so a connection attempt to it is closed with 1008 and the manager is
left untouched. -/
theorem C9_connect_reject_witness :
    websocket_endpoint_connect dbLB (ConnectionManager.mk []) "nope" 1 ⟨7, true⟩
      = (ConnectionManager.mk [], [Effect.closeConn WS_1008_POLICY_VIOLATION]) :=
  C9_connect_reject dbLB (ConnectionManager.mk []) "nope" 1 ⟨7, true⟩ (Or.inl (by decide))

/-- C6: an `answer` event whose question id does not name a currently active
question of the session's room (including an absent id) changes no stored
state and sends nothing — neither to the submitter nor to the room. -/
theorem C6_stale_answer_ignored (db : DB) (team_id : Nat) (room_id : String) (msg : AnswerMsg)
    (h : ∀ qid, msg.question_id = some qid →
      ∀ q ∈ db.questions, ¬(q.id = qid ∧ q.room_id = room_id ∧ q.is_active = true)) :
    process_answer db team_id room_id msg = (db, []) := by
  unfold process_answer
  cases hq : msg.question_id with
  | none => rfl
  | some qid =>
    have hnone : db.questions.find?
        (fun q => q.id == qid && q.room_id == room_id && q.is_active) = none := by
      rw [List.find?_eq_none]
      intro q hmem
      have := h qid hq q hmem
      simp only [Bool.and_eq_true, beq_iff_eq] at *
      tauto
    simp only [hnone]

/-- Witness for `C6_stale_answer_ignored`: in `dbLB` (no questions at all) a
submission for question 3 is silently dropped. -/
theorem C6_stale_answer_ignored_witness :
    process_answer dbLB 1 "r" { question_id := some 3, answer := [98] } = (dbLB, []) :=
  C6_stale_answer_ignored dbLB 1 "r" { question_id := some 3, answer := [98] }
    (by intro qid hq q hmem; cases hmem)

/-- C3: a submission judged correct against the room's active question adds
the question's point value to both the team's room-scoped participation points
and the team's global total in the same step — both advance together (the
code commits them in one transaction) — then sends the submitter a private
`answer_result` with `correct=true`, `points_earned` equal to the question's
point value and the new room-scoped total, and finally broadcasts the updated
leaderboard to the room. -/
theorem C3_correct_answer_award (db : DB) (team_id : Nat) (room_id : String) (msg : AnswerMsg)
    (qid : Nat) (question : Question) (part : TeamRoomParticipation) (team : Team)
    (hqid : msg.question_id = some qid)
    (hfind : db.questions.find? (fun q => q.id == qid && q.room_id == room_id && q.is_active)
      = some question)
    (hcorrect : judge question msg.answer = true)
    (hpart : db.participations.find? (fun p => p.team_id == team_id && p.room_id == room_id)
      = some part)
    (hteam : db.teams.find? (fun t => t.id == team_id) = some team) :
    (process_answer db team_id room_id msg).1.participations.find?
        (fun p => p.team_id == team_id && p.room_id == room_id)
      = some { part with points := part.points + question.points } ∧
    (process_answer db team_id room_id msg).1.teams.find? (fun t => t.id == team_id)
      = some { team with total_points := team.total_points + question.points } ∧
    (process_answer db team_id room_id msg).2
      = [Effect.sendPrivate (Payload.answer_result_correct question.points
            (part.points + question.points)),
         Effect.broadcastLeaderboard] := by
  rw [process_answer_eq_found db team_id room_id msg qid question hqid hfind]
  unfold process_answer_found
  simp only [hcorrect, hpart, if_true]
  refine ⟨?_, ?_, trivial⟩
  · have hp1 := List.find?_some hpart
    exact find?_updateFirst_of_find?
      (fun p => p.team_id == team_id && p.room_id == room_id)
      (fun p => { p with points := p.points + question.points })
      db.participations part hpart hp1
  · have ht1 := List.find?_some hteam
    exact find?_updateFirst_of_find?
      (fun t => t.id == team_id)
      (fun t => { t with total_points := t.total_points + question.points })
      db.teams team hteam ht1

/-- Witness for `C3_correct_answer_award`: team 1 submits `"b"` to the active
question of `dbC3`; both point totals advance by 5 and the private result and
leaderboard broadcast are emitted. -/
theorem C3_correct_answer_award_witness :
    (process_answer dbC3 1 "r" { question_id := some 10, answer := [98] }).1.participations.find?
        (fun p => p.team_id == 1 && p.room_id == "r")
      = some { partC3 with points := partC3.points + qC3.points } ∧
    (process_answer dbC3 1 "r" { question_id := some 10, answer := [98] }).1.teams.find?
        (fun t => t.id == 1)
      = some { teamC3 with total_points := teamC3.total_points + qC3.points } ∧
    (process_answer dbC3 1 "r" { question_id := some 10, answer := [98] }).2
      = [Effect.sendPrivate (Payload.answer_result_correct qC3.points
            (partC3.points + qC3.points)),
         Effect.broadcastLeaderboard] :=
  C3_correct_answer_award dbC3 1 "r" { question_id := some 10, answer := [98] } 10 qC3 partC3
    teamC3 rfl (by decide) (by decide) (by decide) (by decide)

/-- C5: submitting an answer to the room's active question leaves at most one
`Answer` row per (team, question) pair — the whole table keeps the uniqueness
invariant — and the row for the submitting pair afterwards is exactly one,
carrying the text and correctness verdict of this (most recent) submission:
a resubmission overwrites instead of inserting a duplicate. -/
theorem C5_answer_upsert (db : DB) (team_id : Nat) (room_id : String) (msg : AnswerMsg)
    (qid : Nat) (question : Question)
    (hu : answersUnique db)
    (hqid : msg.question_id = some qid)
    (hfind : db.questions.find? (fun q => q.id == qid && q.room_id == room_id && q.is_active)
      = some question) :
    answersUnique (process_answer db team_id room_id msg).1 ∧
    ∃ a, (process_answer db team_id room_id msg).1.answers.filter
        (fun x => x.team_id == team_id && x.question_id == question.id) = [a] ∧
      a.text = msg.answer ∧ a.is_correct = judge question msg.answer := by
  simp only [process_answer_eq_found db team_id room_id msg qid question hqid hfind,
    answersUnique, process_answer_found_answers]
  exact ⟨upsert_answer_unique db.answers team_id question.id msg.answer
           (judge question msg.answer) hu,
         upsert_answer_filter db.answers team_id question.id msg.answer
           (judge question msg.answer) hu⟩

/-- Witness for `C5_answer_upsert`: team 1 submits `"c"` (wrong) to the active
question of `dbC3`; exactly one answer row for the pair exists afterwards and
records this submission. -/
theorem C5_answer_upsert_witness :
    answersUnique (process_answer dbC3 1 "r" { question_id := some 10, answer := [99] }).1 ∧
    ∃ a, (process_answer dbC3 1 "r" { question_id := some 10, answer := [99] }).1.answers.filter
        (fun x => x.team_id == 1 && x.question_id == qC3.id) = [a] ∧
      a.text = [99] ∧ a.is_correct = judge qC3 [99] :=
  C5_answer_upsert dbC3 1 "r" { question_id := some 10, answer := [99] } 10 qC3
    (by simp [answersUnique, dbC3]) rfl (by decide)

/-- C4 counterexample: the well-formed JSON object payload
`{"type": "foo"}` is neither a chat nor an answer event, yet the handler does
not broadcast it as chat — it is silently ignored (no effect at all), refuting
the claim that every non-chat/non-answer payload falls back to raw-text
chat. -/
theorem C4_counterexample :
    handle_message dbC3 teamC3 "r" [104, 105]
        (Parsed.dict (some (strLit "foo")) none none none)
      = Except.ok (dbC3, ([] : List Effect)) ∧
    Effect.broadcastRoom (Payload.chat teamC3.id teamC3.name teamC3.profile_picture [104, 105])
      ∉ ([] : List Effect) := by
  constructor
  · rfl
  · simp

/-- C4 (amended): a payload that fails JSON parsing is broadcast to the room
as a chat event carrying the sender's identity and the raw payload text, and
never terminates the connection; a well-formed JSON object whose type is
neither chat nor answer is silently ignored (no broadcast, no response); a
well-formed non-object JSON payload raises an unhandled `AttributeError`
(which does terminate the connection). -/
theorem C4_payload_fallback (db : DB) (team : Team) (room_id : String) (raw : PyStr) :
    handle_message db team room_id raw Parsed.malformed
      = Except.ok (db, [Effect.broadcastRoom
          (Payload.chat team.id team.name team.profile_picture raw)]) ∧
    (∀ ty message question_id answer, ty ≠ some chatLit → ty ≠ some answerLit →
      handle_message db team room_id raw (Parsed.dict ty message question_id answer)
        = Except.ok (db, ([] : List Effect))) ∧
    handle_message db team room_id raw Parsed.nonDict = Except.error PyErr.attributeError := by
  refine ⟨rfl, ?_, rfl⟩
  intro ty message question_id answer h1 h2
  show (if ty = some chatLit then _ else if ty = some answerLit then _ else
    Except.ok (db, ([] : List Effect))) = Except.ok (db, ([] : List Effect))
  rw [if_neg h1, if_neg h2]

/-- Witness for `C4_payload_fallback`: the object payload with type `"x"` is
ignored with no effects. -/
theorem C4_payload_fallback_witness :
    handle_message dbC3 teamC3 "r" [104] (Parsed.dict (some (strLit "x")) none none none)
      = Except.ok (dbC3, ([] : List Effect)) :=
  (C4_payload_fallback dbC3 teamC3 "r" [104]).2.1 (some (strLit "x")) none none none
    (by decide) (by decide)

/-- C1 counterexample: `dbC3` satisfies the single-active-question invariant,
yet `create_question` with a payload whose `is_active` flag is `true` (which
the `QuestionCreate` schema permits) inserts a second active question into
room `"r"` without deactivating its sibling, breaking the invariant — so not
every question-creating operation preserves it. -/
theorem C1_counterexample :
    atMostOneActivePerRoom dbC3 ∧
    ¬ atMostOneActivePerRoom (create_question dbC3 qcC1).1 := by
  constructor
  · unfold atMostOneActivePerRoom
    decide
  · unfold atMostOneActivePerRoom
    decide

/-- C1 (amended): `set_question_active` always preserves the at-most-one-
active-question-per-room invariant (activation deactivates all same-room
siblings in the same operation; deactivation only clears flags), and
`create_question` preserves it when the created question's activity flag is
false — but not in general, since it stores the client-supplied flag without
touching siblings. -/
theorem C1_single_active_preserved (db : DB)
    (hids : questionIdsUnique db) (hinv : atMostOneActivePerRoom db) :
    (∀ question_id is_active db',
        set_question_active db question_id is_active = some db' →
        atMostOneActivePerRoom db') ∧
    (∀ qc : QuestionCreate, qc.is_active = false →
        atMostOneActivePerRoom (create_question db qc).1) := by
  have hinvP : db.questions.Pairwise
      (fun a b => ¬(a.is_active = true ∧ b.is_active = true ∧ a.room_id = b.room_id)) := hinv
  have hidsP : db.questions.Pairwise (fun a b => a.id ≠ b.id) := hids
  constructor
  · intro qid b db' h
    unfold set_question_active at h
    cases hfind : db.questions.find? (fun q => q.id == qid) with
    | none =>
      rw [hfind] at h
      exact Option.noConfusion h
    | some target =>
      have htmem : target ∈ db.questions := List.mem_of_find?_eq_some hfind
      have htid : target.id = qid := by
        have := List.find?_some hfind
        exact beq_iff_eq.mp this
      cases b with
      | false =>
        simp only [hfind, Bool.false_eq_true, if_false] at h
        injection h with h
        subst h
        unfold atMostOneActivePerRoom
        simp only [List.pairwise_map]
        refine hinvP.imp ?_
        intro a c hac hcon
        rcases hcon with ⟨ha, hc, hr⟩
        rw [setActiveFlag_room_id, setActiveFlag_room_id] at hr
        exact hac ⟨setActiveFlag_false_act qid a ha, setActiveFlag_false_act qid c hc, hr⟩
      | true =>
        simp only [hfind, if_true] at h
        injection h with h
        subst h
        unfold atMostOneActivePerRoom
        simp only [List.map_map, List.pairwise_map, Function.comp]
        have huniq := List.Pairwise.forall
          (R := fun x y : Question => x.id ≠ y.id) (fun _ _ hxy he => hxy he.symm) hidsP
        refine (hinvP.and hidsP).imp_of_mem ?_
        intro a c ha hc hac hcon
        rcases hcon with ⟨hka, hkc, hkr⟩
        rw [activate_room_id, activate_room_id] at hkr
        by_cases hida : a.id = qid
        · by_cases hidc : c.id = qid
          · exact hac.2 (hida.trans hidc.symm)
          · have haT : a = target := by
              by_contra hne
              exact huniq ha htmem hne (hida.trans htid.symm)
            have hcr : c.room_id = target.room_id := by
              rw [← hkr, haT]
            have hfalse : (setActiveFlag qid true
                (deactivateOthers target.room_id qid c)).is_active = false := by
              simp [deactivateOthers, setActiveFlag, hcr, hidc]
            rw [hfalse] at hkc
            exact Bool.noConfusion hkc
        · by_cases hidc : c.id = qid
          · have hcT : c = target := by
              by_contra hne
              exact huniq hc htmem hne (hidc.trans htid.symm)
            have har : a.room_id = target.room_id := by
              rw [hkr, hcT]
            have hfalse : (setActiveFlag qid true
                (deactivateOthers target.room_id qid a)).is_active = false := by
              simp [deactivateOthers, setActiveFlag, har, hida]
            rw [hfalse] at hka
            exact Bool.noConfusion hka
          · by_cases har : a.room_id = target.room_id
            · have hfalse : (setActiveFlag qid true
                  (deactivateOthers target.room_id qid a)).is_active = false := by
                simp [deactivateOthers, setActiveFlag, har, hida]
              rw [hfalse] at hka
              exact Bool.noConfusion hka
            · by_cases hcr : c.room_id = target.room_id
              · have hfalse : (setActiveFlag qid true
                    (deactivateOthers target.room_id qid c)).is_active = false := by
                  simp [deactivateOthers, setActiveFlag, hcr, hidc]
                rw [hfalse] at hkc
                exact Bool.noConfusion hkc
              · have hea : setActiveFlag qid true (deactivateOthers target.room_id qid a)
                    = a := by
                  simp [deactivateOthers, setActiveFlag, har, hida]
                have hec : setActiveFlag qid true (deactivateOthers target.room_id qid c)
                    = c := by
                  simp [deactivateOthers, setActiveFlag, hcr, hidc]
                rw [hea] at hka
                rw [hec] at hkc
                exact hac.1 ⟨hka, hkc, hkr⟩
  · intro qc hfalse
    unfold create_question atMostOneActivePerRoom
    refine List.pairwise_append.mpr ⟨hinvP, by simp, ?_⟩
    intro a ha bq hb
    rw [List.mem_singleton] at hb
    subst hb
    intro hcon
    have hact : qc.is_active = true := hcon.2.1
    rw [hfalse] at hact
    exact Bool.noConfusion hact

/-- Witness for `C1_single_active_preserved`: deactivating question 10 of
`dbC3` yields a state that still satisfies the invariant. -/
theorem C1_single_active_preserved_witness :
    atMostOneActivePerRoom { dbC3 with questions := [{ qC3 with is_active := false }] } :=
  (C1_single_active_preserved dbC3 (by unfold questionIdsUnique; decide)
      (by unfold atMostOneActivePerRoom; decide)).1 10 false
    { dbC3 with questions := [{ qC3 with is_active := false }] } (by decide)

end Quiz
